import Mathlib

/-!
Shallow embedding of `sakurai_nmf/matrix_factorization/matrix_factorization.py`:
the dispatch/orientation layer for semi-NMF, nonlinear semi-NMF and softmax NMF.
Matrix entries are modelled as exact values that may be NaN or infinite; the
TensorFlow deferred backend is modelled as a static-shape annotation together
with a deferred computation that can fail (as `tf.check_numerics` does at
materialization time).
-/

namespace SakuraiNMF

/-- An entry of a float64 matrix: NaN, an infinity, or a finite number
(modelled exactly as a rational). -/
inductive Val where
  | nan : Val
  | inf : Val
  | num : ℚ → Val
deriving DecidableEq

/-- Whether an entry is finite (neither NaN nor infinite). -/
def Val.isFinite : Val → Bool
  | .num _ => true
  | _ => false

/-- A numpy-style dense matrix: a shape together with an entry function. -/
structure Mat where
  rows : Nat
  cols : Nat
  entry : Nat → Nat → Val

/-- Matrix transpose, `a.T` in the source. -/
def Mat.transpose (m : Mat) : Mat :=
  ⟨m.cols, m.rows, fun i j => m.entry j i⟩

/-- Whether any in-bounds entry is NaN or infinite: this is the condition under
which `tf.check_numerics` fails. -/
def Mat.hasNonFinite (m : Mat) : Bool :=
  (List.range m.rows).any fun i =>
    (List.range m.cols).any fun j => !(m.entry i j).isFinite

/-- The all-zero empty matrix, used only as a fallback value. -/
def Mat.zero : Mat := ⟨0, 0, fun _ _ => .num 0⟩

/-- A static shape descriptor `(rows, cols)`. -/
abbrev Shape := Nat × Nat

/-- Translation of `_check_shape(a, u, v, use_bias)` (lines 14-21 of the
source), operating on the three shape descriptors: an inclusive OR of the three
dimension agreements. -/
def _check_shape (a u v : Shape) (use_bias : Bool) : Bool :=
  (a.1 == u.1) || (a.2 == v.2) || (u.2 == v.1 + (if use_bias then 1 else 0))

/-- The shape check lifted to possibly-unknown static shapes: indexing an
unknown shape at the assert line cannot succeed, so an unknown shape never
passes the check. -/
def checkShapeOpt : Option Shape → Option Shape → Option Shape → Bool → Bool
  | some sa, some su, some sv, ub => _check_shape sa su sv ub
  | _, _, _, _ => false

/-- The failure modes of the layer: the `assert _check_shape` at entry, the
`tf.check_numerics` gate on the deferred path, and the final
`raise NotImplementedError`. -/
inductive MFError where
  | shapeAssertion : MFError
  | numericalInstability : String → MFError
  | notImplemented : MFError
deriving DecidableEq

/-- A TensorFlow graph tensor: a static shape annotation (possibly unknown, as
after `tf.py_func`) plus the deferred computation that produces its value at
materialization time, which may fail. -/
structure TFTensor where
  staticShape : Option Shape
  run : Except MFError Mat

/-- `tf.transpose`: swaps the static shape and transposes the materialized
value. -/
def tfTranspose (t : TFTensor) : TFTensor :=
  ⟨t.staticShape.map (fun s => (s.2, s.1)), t.run.map Mat.transpose⟩

/-- `tf.py_func(f, [a, u, v], [tf.float64, tf.float64])`: embeds the host
callable as an opaque node; the outputs' static shapes are unknown. -/
def tfPyFunc (f : Mat → Mat → Mat → Mat × Mat) (a u v : TFTensor) :
    TFTensor × TFTensor :=
  (⟨none, a.run.bind fun A => u.run.bind fun U => v.run.bind fun V =>
      .ok (f A U V).1⟩,
   ⟨none, a.run.bind fun A => u.run.bind fun U => v.run.bind fun V =>
      .ok (f A U V).2⟩)

/-- `tf.check_numerics(t, msg)`: at materialization, fails the computation if
the value contains a NaN or infinite entry, otherwise passes it through. -/
def tfCheckNumerics (t : TFTensor) (msg : String) : TFTensor :=
  ⟨t.staticShape,
   t.run.bind fun m =>
     if m.hasNonFinite then .error (.numericalInstability msg) else .ok m⟩

/-- `t.set_shape(s)`: re-attaches a static shape to a tensor. -/
def tfSetShape (t : TFTensor) (s : Option Shape) : TFTensor :=
  ⟨s, t.run⟩

/-- The runtime type of an operand: a concrete `np.ndarray` or a graph
tensor. The dispatch tests `isinstance(a, np.ndarray)`. -/
inductive TensorLike where
  | np : Mat → TensorLike
  | tfT : TFTensor → TensorLike

/-- Whether the operand is a concrete numpy array. -/
def TensorLike.isNp : TensorLike → Bool
  | .np _ => true
  | .tfT _ => false

/-- The `.shape` attribute: actual shape for an ndarray, static shape for a
graph tensor. -/
def TensorLike.shape : TensorLike → Option Shape
  | .np m => some (m.rows, m.cols)
  | .tfT t => t.staticShape

/-- Conversion of an operand to a graph tensor, as TensorFlow ops do
implicitly when handed an ndarray. -/
def TensorLike.toTF : TensorLike → TFTensor
  | .np m => ⟨some (m.rows, m.cols), .ok m⟩
  | .tfT t => t

/-- The concrete matrix of an operand on the immediate path (the code only
reaches this with ndarrays). -/
def TensorLike.val : TensorLike → Mat
  | .np m => m
  | .tfT t => t.run.toOption.getD Mat.zero

/-- The configuration bundle of solver hyperparameters shared by the entry
operations. -/
structure Config where
  firstNneg : Bool
  numIters : Nat
  numCalcU : Nat
  numCalcV : Nat
  rcond : ℚ
  eps : ℚ
  alpha : ℚ
  beta : ℚ
deriving DecidableEq

/-- The keyword arguments bound into the solver callable by
`functools.partial`: `none` means the keyword is not forwarded. -/
structure BoundArgs where
  alphaOpt : Option ℚ
  betaOpt : Option ℚ
  rcond : ℚ
  eps : ℚ
  numIters : Nat
  numCalcUOpt : Option Nat
  numCalcVOpt : Option Nat
  firstNnegOpt : Option Bool
deriving DecidableEq

/-- The arguments `semi_nmf` binds (lines 58-75): `alpha`/`beta` only in the
biased mode, never the inner-refinement counts. -/
def semiNmfArgs (use_bias : Bool) (c : Config) : BoundArgs :=
  if use_bias then
    ⟨some c.alpha, some c.beta, c.rcond, c.eps, c.numIters, none, none,
     some c.firstNneg⟩
  else
    ⟨none, none, c.rcond, c.eps, c.numIters, none, none, some c.firstNneg⟩

/-- The arguments `nonlin_semi_nmf` binds (lines 148-169): additionally the
two inner-refinement counts `num_calc_u`, `num_calc_v`. -/
def nonlinSemiNmfArgs (use_bias : Bool) (c : Config) : BoundArgs :=
  if use_bias then
    ⟨some c.alpha, some c.beta, c.rcond, c.eps, c.numIters, some c.numCalcU,
     some c.numCalcV, some c.firstNneg⟩
  else
    ⟨none, none, c.rcond, c.eps, c.numIters, some c.numCalcU, some c.numCalcV,
     some c.firstNneg⟩

/-- The arguments `softmax_nmf` binds (lines 240-255): neither `first_nneg`
nor the inner-refinement counts. -/
def softmaxNmfArgs (use_bias : Bool) (c : Config) : BoundArgs :=
  if use_bias then
    ⟨some c.alpha, some c.beta, c.rcond, c.eps, c.numIters, none, none, none⟩
  else
    ⟨none, none, c.rcond, c.eps, c.numIters, none, none, none⟩

/-- The external solver-kernel collaborator: receives the bound keyword
arguments and the three matrices in the solver's native orientation and
returns updated `(u, v)`. -/
abbrev Kernel := BoundArgs → Mat → Mat → Mat → Mat × Mat

/-- The sample-first-to-solver-orientation conversion (line 81): transpose A,
swap the roles of U and V, transpose each factor; the result is the argument
triple `(a, u, v)` handed to the kernel. -/
def to_solver_orientation (a u v : Mat) : Mat × Mat × Mat :=
  (a.transpose, v.transpose, u.transpose)

/-- The inverse conversion (lines 82-83): given the kernel's outputs
`(u_t, v_t)`, the caller's `(u, v)` is `(v_t.T, u_t.T)`. -/
def from_solver_orientation (u_t v_t : Mat) : Mat × Mat :=
  (v_t.transpose, u_t.transpose)

/-- The result of an entry operation: concrete matrices on the immediate
(numpy) path, graph tensors on the deferred (TensorFlow) path. -/
inductive MFOutput where
  | concrete : Mat → Mat → MFOutput
  | graph : TFTensor → TFTensor → MFOutput

/-- Translation of `semi_nmf` (lines 24-111): shape assert, keyword binding,
then dispatch on `isinstance(a, np.ndarray) and not use_tf` / `use_tf` /
`raise NotImplementedError`, with the orientation conversion on the
batch-first branches and the `check_numerics` + `set_shape` steps on the
TensorFlow branches. -/
def semi_nmf (kernel : Kernel) (a u v : TensorLike)
    (use_bias use_tf data_format : Bool) (cfg : Config) :
    Except MFError MFOutput :=
  if checkShapeOpt a.shape u.shape v.shape use_bias then
    let args := semiNmfArgs use_bias cfg
    if a.isNp && !use_tf then
      if data_format then
        let s := to_solver_orientation a.val u.val v.val
        let uv := kernel args s.1 s.2.1 s.2.2
        let r := from_solver_orientation uv.1 uv.2
        .ok (.concrete r.1 r.2)
      else
        let uv := kernel args a.val u.val v.val
        .ok (.concrete uv.1 uv.2)
    else if use_tf then
      let ta := a.toTF
      let tu := u.toTF
      let tv := v.toTF
      let uShape := tu.staticShape
      let vShape := tv.staticShape
      if data_format then
        let aT := tfTranspose ta
        let p := tfPyFunc (kernel args) aT (tfTranspose tv) (tfTranspose tu)
        let tfU := tfCheckNumerics (tfTranspose p.2) "u"
        let tfV := tfCheckNumerics (tfTranspose p.1) "v"
        .ok (.graph (tfSetShape tfU uShape) (tfSetShape tfV vShape))
      else
        let p := tfPyFunc (kernel args) ta tu tv
        .ok (.graph (tfSetShape (tfCheckNumerics p.1 "u") uShape)
                    (tfSetShape (tfCheckNumerics p.2 "v") vShape))
    else
      .error .notImplemented
  else
    .error .shapeAssertion

/-- Translation of `nonlin_semi_nmf` (lines 114-205): same structure as
`semi_nmf` but binding the inner-refinement counts. -/
def nonlin_semi_nmf (kernel : Kernel) (a u v : TensorLike)
    (use_bias use_tf data_format : Bool) (cfg : Config) :
    Except MFError MFOutput :=
  if checkShapeOpt a.shape u.shape v.shape use_bias then
    let args := nonlinSemiNmfArgs use_bias cfg
    if a.isNp && !use_tf then
      if data_format then
        let s := to_solver_orientation a.val u.val v.val
        let uv := kernel args s.1 s.2.1 s.2.2
        let r := from_solver_orientation uv.1 uv.2
        .ok (.concrete r.1 r.2)
      else
        let uv := kernel args a.val u.val v.val
        .ok (.concrete uv.1 uv.2)
    else if use_tf then
      let ta := a.toTF
      let tu := u.toTF
      let tv := v.toTF
      let uShape := tu.staticShape
      let vShape := tv.staticShape
      if data_format then
        let p := tfPyFunc (kernel args) (tfTranspose ta) (tfTranspose tv)
          (tfTranspose tu)
        let tfU := tfCheckNumerics (tfTranspose p.2) "u"
        let tfV := tfCheckNumerics (tfTranspose p.1) "v"
        .ok (.graph (tfSetShape tfU uShape) (tfSetShape tfV vShape))
      else
        let p := tfPyFunc (kernel args) ta tu tv
        .ok (.graph (tfSetShape (tfCheckNumerics p.1 "u") uShape)
                    (tfSetShape (tfCheckNumerics p.2 "v") vShape))
    else
      .error .notImplemented
  else
    .error .shapeAssertion

/-- Translation of `softmax_nmf` (lines 208-291): same dispatch as `semi_nmf`
but with no shape assert before it and with the softmax keyword binding. -/
def softmax_nmf (kernel : Kernel) (a u v : TensorLike)
    (use_bias use_tf data_format : Bool) (cfg : Config) :
    Except MFError MFOutput :=
  let args := softmaxNmfArgs use_bias cfg
  if a.isNp && !use_tf then
    if data_format then
      let s := to_solver_orientation a.val u.val v.val
      let uv := kernel args s.1 s.2.1 s.2.2
      let r := from_solver_orientation uv.1 uv.2
      .ok (.concrete r.1 r.2)
    else
      let uv := kernel args a.val u.val v.val
      .ok (.concrete uv.1 uv.2)
  else if use_tf then
    let ta := a.toTF
    let tu := u.toTF
    let tv := v.toTF
    let uShape := tu.staticShape
    let vShape := tv.staticShape
    if data_format then
      let aT := tfTranspose ta
      let p := tfPyFunc (kernel args) aT (tfTranspose tv) (tfTranspose tu)
      let tfU := tfCheckNumerics (tfTranspose p.2) "u"
      let tfV := tfCheckNumerics (tfTranspose p.1) "v"
      .ok (.graph (tfSetShape tfU uShape) (tfSetShape tfV vShape))
    else
      let p := tfPyFunc (kernel args) ta tu tv
      .ok (.graph (tfSetShape (tfCheckNumerics p.1 "u") uShape)
                  (tfSetShape (tfCheckNumerics p.2 "v") vShape))
  else
    .error .notImplemented

/-- Whether an entry-operation result is a deferred graph node pair. -/
def isGraphResult : Except MFError MFOutput → Bool
  | .ok (.graph _ _) => true
  | _ => false

/-- Whether an entry-operation result is a concrete (immediate) matrix
pair. -/
def isConcreteResult : Except MFError MFOutput → Bool
  | .ok (.concrete _ _) => true
  | _ => false

/-- The static shapes of the two outputs of a deferred call, when the call
produced graph tensors. -/
def graphShapes : Except MFError MFOutput → Option (Option Shape × Option Shape)
  | .ok (.graph gu gv) => some (gu.staticShape, gv.staticShape)
  | _ => none

/-- Whether a deferred call produced a graph tensor whose materialization
fails with a numerical-instability error, i.e. the validity gate fires before
the value reaches any downstream consumer. -/
def raisesInstability : Except MFError MFOutput → Bool
  | .ok (.graph gu gv) =>
      (match gu.run with
       | .error (.numericalInstability _) => true
       | _ => false) ||
      (match gv.run with
       | .error (.numericalInstability _) => true
       | _ => false)
  | _ => false

/-- A constant finite matrix, used as concrete test data. -/
def mat0 (r c : Nat) : Mat := ⟨r, c, fun _ _ => .num 0⟩

/-- A matrix all of whose entries are NaN, used as concrete test data. -/
def nanMat (r c : Nat) : Mat := ⟨r, c, fun _ _ => .nan⟩

/-- A solver-kernel stub that returns NaN-filled factors. -/
def kNan : Kernel := fun _ _ _ _ => (nanMat 2 2, nanMat 2 2)

/-- A solver-kernel stub that returns finite factors. -/
def kZero : Kernel := fun _ _ _ _ => (mat0 2 2, mat0 2 2)

/-- A concrete configuration bundle for test instantiations. -/
def cfg0 : Config := ⟨false, 1, 1, 1, 0, 0, 0, 0⟩

/-- Transposing twice is the identity. -/
theorem Mat.transpose_transpose (m : Mat) : m.transpose.transpose = m := rfl

/-- Transposition does not create or destroy non-finite entries. -/
theorem Mat.hasNonFinite_transpose (m : Mat) :
    m.transpose.hasNonFinite = m.hasNonFinite := by
  rw [Bool.eq_iff_iff]
  simp only [Mat.hasNonFinite, Mat.transpose, List.any_eq_true, List.mem_range]
  constructor
  · rintro ⟨i, hi, j, hj, h⟩
    exact ⟨j, hj, i, hi, h⟩
  · rintro ⟨i, hi, j, hj, h⟩
    exact ⟨j, hj, i, hi, h⟩

/-- Evaluation of `semi_nmf` on the immediate batch-first branch
(lines 80-84). -/
theorem semi_nmf_np_batch (k : Kernel) (a u v : Mat) (ub : Bool) (cfg : Config)
    (h : _check_shape (a.rows, a.cols) (u.rows, u.cols) (v.rows, v.cols) ub
      = true) :
    semi_nmf k (.np a) (.np u) (.np v) ub false true cfg =
      .ok (.concrete
        (k (semiNmfArgs ub cfg) a.transpose v.transpose u.transpose).2.transpose
        (k (semiNmfArgs ub cfg) a.transpose v.transpose u.transpose).1.transpose) := by
  simp [semi_nmf, TensorLike.shape, TensorLike.isNp, TensorLike.val,
        checkShapeOpt, h, to_solver_orientation, from_solver_orientation]

/-- Evaluation of `semi_nmf` on the immediate feature-first branch
(line 86): a pure pass-through. -/
theorem semi_nmf_np_matlab (k : Kernel) (a u v : Mat) (ub : Bool) (cfg : Config)
    (h : _check_shape (a.rows, a.cols) (u.rows, u.cols) (v.rows, v.cols) ub
      = true) :
    semi_nmf k (.np a) (.np u) (.np v) ub false false cfg =
      .ok (.concrete (k (semiNmfArgs ub cfg) a u v).1
                     (k (semiNmfArgs ub cfg) a u v).2) := by
  simp [semi_nmf, TensorLike.shape, TensorLike.isNp, TensorLike.val,
        checkShapeOpt, h]

/-- Evaluation of `semi_nmf` on the deferred batch-first branch
(lines 94-103). -/
theorem semi_nmf_tf_batch (k : Kernel) (ta tu tv : TFTensor) (ub : Bool)
    (cfg : Config)
    (h : checkShapeOpt ta.staticShape tu.staticShape tv.staticShape ub
      = true) :
    semi_nmf k (.tfT ta) (.tfT tu) (.tfT tv) ub true true cfg =
      .ok (.graph
        (tfSetShape (tfCheckNumerics (tfTranspose
          (tfPyFunc (k (semiNmfArgs ub cfg)) (tfTranspose ta) (tfTranspose tv)
            (tfTranspose tu)).2) "u") tu.staticShape)
        (tfSetShape (tfCheckNumerics (tfTranspose
          (tfPyFunc (k (semiNmfArgs ub cfg)) (tfTranspose ta) (tfTranspose tv)
            (tfTranspose tu)).1) "v") tv.staticShape)) := by
  simp [semi_nmf, TensorLike.shape, TensorLike.isNp, TensorLike.toTF, h]

/-- Evaluation of `semi_nmf` on the deferred feature-first branch
(lines 104-109). -/
theorem semi_nmf_tf_matlab (k : Kernel) (ta tu tv : TFTensor) (ub : Bool)
    (cfg : Config)
    (h : checkShapeOpt ta.staticShape tu.staticShape tv.staticShape ub
      = true) :
    semi_nmf k (.tfT ta) (.tfT tu) (.tfT tv) ub true false cfg =
      .ok (.graph
        (tfSetShape (tfCheckNumerics
          (tfPyFunc (k (semiNmfArgs ub cfg)) ta tu tv).1 "u") tu.staticShape)
        (tfSetShape (tfCheckNumerics
          (tfPyFunc (k (semiNmfArgs ub cfg)) ta tu tv).2 "v") tv.staticShape)) := by
  simp [semi_nmf, TensorLike.shape, TensorLike.isNp, TensorLike.toTF, h]

/-- When the shape check fails, `semi_nmf` returns the assertion error
whatever the kernel and flags are. -/
theorem semi_nmf_shape_fail (k : Kernel) (a u v : TensorLike)
    (ub utf df : Bool) (cfg : Config)
    (h : checkShapeOpt a.shape u.shape v.shape ub = false) :
    semi_nmf k a u v ub utf df cfg = .error .shapeAssertion := by
  simp [semi_nmf, h]

/-- When the shape check fails, `nonlin_semi_nmf` returns the assertion error
whatever the kernel and flags are. -/
theorem nonlin_semi_nmf_shape_fail (k : Kernel) (a u v : TensorLike)
    (ub utf df : Bool) (cfg : Config)
    (h : checkShapeOpt a.shape u.shape v.shape ub = false) :
    nonlin_semi_nmf k a u v ub utf df cfg = .error .shapeAssertion := by
  simp [nonlin_semi_nmf, h]

/-- Evaluation of `softmax_nmf` on the immediate batch-first branch
(lines 260-264): no shape check guards it. -/
theorem softmax_nmf_np_batch (k : Kernel) (a u v : Mat) (ub : Bool)
    (cfg : Config) :
    softmax_nmf k (.np a) (.np u) (.np v) ub false true cfg =
      .ok (.concrete
        (k (softmaxNmfArgs ub cfg) a.transpose v.transpose u.transpose).2.transpose
        (k (softmaxNmfArgs ub cfg) a.transpose v.transpose u.transpose).1.transpose) := by
  simp [softmax_nmf, TensorLike.isNp, TensorLike.val,
        to_solver_orientation, from_solver_orientation]

/-- Evaluation of `nonlin_semi_nmf` on the immediate feature-first branch
(line 180): a pure pass-through. -/
theorem nonlin_semi_nmf_np_matlab (k : Kernel) (a u v : Mat) (ub : Bool)
    (cfg : Config)
    (h : _check_shape (a.rows, a.cols) (u.rows, u.cols) (v.rows, v.cols) ub
      = true) :
    nonlin_semi_nmf k (.np a) (.np u) (.np v) ub false false cfg =
      .ok (.concrete (k (nonlinSemiNmfArgs ub cfg) a u v).1
                     (k (nonlinSemiNmfArgs ub cfg) a u v).2) := by
  simp [nonlin_semi_nmf, TensorLike.shape, TensorLike.isNp, TensorLike.val,
        checkShapeOpt, h]

/-- Evaluation of `nonlin_semi_nmf` on the deferred batch-first branch
(lines 188-196). -/
theorem nonlin_semi_nmf_tf_batch (k : Kernel) (ta tu tv : TFTensor) (ub : Bool)
    (cfg : Config)
    (h : checkShapeOpt ta.staticShape tu.staticShape tv.staticShape ub
      = true) :
    nonlin_semi_nmf k (.tfT ta) (.tfT tu) (.tfT tv) ub true true cfg =
      .ok (.graph
        (tfSetShape (tfCheckNumerics (tfTranspose
          (tfPyFunc (k (nonlinSemiNmfArgs ub cfg)) (tfTranspose ta)
            (tfTranspose tv) (tfTranspose tu)).2) "u") tu.staticShape)
        (tfSetShape (tfCheckNumerics (tfTranspose
          (tfPyFunc (k (nonlinSemiNmfArgs ub cfg)) (tfTranspose ta)
            (tfTranspose tv) (tfTranspose tu)).1) "v") tv.staticShape)) := by
  simp [nonlin_semi_nmf, TensorLike.shape, TensorLike.isNp, TensorLike.toTF, h]

/-- Evaluation of `nonlin_semi_nmf` on the deferred feature-first branch
(lines 198-203). -/
theorem nonlin_semi_nmf_tf_matlab (k : Kernel) (ta tu tv : TFTensor)
    (ub : Bool) (cfg : Config)
    (h : checkShapeOpt ta.staticShape tu.staticShape tv.staticShape ub
      = true) :
    nonlin_semi_nmf k (.tfT ta) (.tfT tu) (.tfT tv) ub true false cfg =
      .ok (.graph
        (tfSetShape (tfCheckNumerics
          (tfPyFunc (k (nonlinSemiNmfArgs ub cfg)) ta tu tv).1 "u")
          tu.staticShape)
        (tfSetShape (tfCheckNumerics
          (tfPyFunc (k (nonlinSemiNmfArgs ub cfg)) ta tu tv).2 "v")
          tv.staticShape)) := by
  simp [nonlin_semi_nmf, TensorLike.shape, TensorLike.isNp, TensorLike.toTF, h]

/-- Claim C1: the sample-first-to-solver-orientation conversion followed by
its inverse, with no solving in between, returns `(U, V)` elementwise equal
to the inputs. -/
theorem orientation_round_trip (a u v : Mat) :
    from_solver_orientation (to_solver_orientation a u v).2.1
      (to_solver_orientation a u v).2.2 = (u, v) := rfl

/-- Claim C2: the shape validator returns true iff at least one of the three
clauses holds (rows agree, cols agree, or rank of U equals rank of V plus the
bias increment); it is an inclusive OR, false exactly when all three fail. -/
theorem check_shape_or_spec (sa su sv : Shape) (ub : Bool) :
    _check_shape sa su sv ub = true ↔
      sa.1 = su.1 ∨ sa.2 = sv.2 ∨
        su.2 = sv.1 + (if ub then 1 else 0) := by
  simp [_check_shape, or_assoc]

/-- Claim C7: the nonlinear entry binds exactly the two inner-refinement
counts into its solver callable, and the linear entry given the same
configuration does not forward them. -/
theorem variant_isolation (ub : Bool) (c : Config) :
    (nonlinSemiNmfArgs ub c).numCalcUOpt = some c.numCalcU ∧
    (nonlinSemiNmfArgs ub c).numCalcVOpt = some c.numCalcV ∧
    (semiNmfArgs ub c).numCalcUOpt = none ∧
    (semiNmfArgs ub c).numCalcVOpt = none := by
  cases ub <;> simp [nonlinSemiNmfArgs, semiNmfArgs]

/-- Claim C3: a solver kernel whose output contains a NaN or infinite entry
makes the deferred-backend call produce a graph tensor whose materialization
fails with a numerical-instability error before the value reaches any
downstream consumer, while the same kernel through the immediate backend
returns the NaN-containing matrices unchanged (no gate on that path). -/
theorem deferred_validity_gate (k : Kernel) (a u v : Mat) (ub : Bool)
    (cfg : Config)
    (hshape : _check_shape (a.rows, a.cols) (u.rows, u.cols) (v.rows, v.cols)
      ub = true)
    (hnan : ((k (semiNmfArgs ub cfg) a.transpose v.transpose
                u.transpose).1.hasNonFinite ||
             (k (semiNmfArgs ub cfg) a.transpose v.transpose
                u.transpose).2.hasNonFinite) = true) :
    raisesInstability
      (semi_nmf k (.tfT ⟨some (a.rows, a.cols), .ok a⟩)
        (.tfT ⟨some (u.rows, u.cols), .ok u⟩)
        (.tfT ⟨some (v.rows, v.cols), .ok v⟩) ub true true cfg) = true ∧
    semi_nmf k (.np a) (.np u) (.np v) ub false true cfg =
      .ok (.concrete
        (k (semiNmfArgs ub cfg) a.transpose v.transpose u.transpose).2.transpose
        (k (semiNmfArgs ub cfg) a.transpose v.transpose u.transpose).1.transpose) ∧
    ((k (semiNmfArgs ub cfg) a.transpose v.transpose
        u.transpose).2.transpose.hasNonFinite ||
     (k (semiNmfArgs ub cfg) a.transpose v.transpose
        u.transpose).1.transpose.hasNonFinite) = true := by
  refine ⟨?_, semi_nmf_np_batch k a u v ub cfg hshape, ?_⟩
  · rw [semi_nmf_tf_batch k ⟨some (a.rows, a.cols), .ok a⟩
      ⟨some (u.rows, u.cols), .ok u⟩ ⟨some (v.rows, v.cols), .ok v⟩ ub cfg
      (by simpa [checkShapeOpt] using hshape)]
    simp only [Bool.or_eq_true] at hnan
    rcases hnan with h1 | h2
    · simp [raisesInstability, tfSetShape, tfCheckNumerics, tfTranspose,
            tfPyFunc, Except.bind, Except.map, Mat.hasNonFinite_transpose, h1]
    · simp [raisesInstability, tfSetShape, tfCheckNumerics, tfTranspose,
            tfPyFunc, Except.bind, Except.map, Mat.hasNonFinite_transpose, h2]
  · simp only [Mat.hasNonFinite_transpose]
    rw [Bool.or_comm]
    exact hnan

/-- Concrete instantiation of `deferred_validity_gate`: a NaN-producing
kernel stub on 2-by-3 data. -/
theorem deferred_validity_gate_witness :
    _check_shape ((mat0 2 3).rows, (mat0 2 3).cols)
      ((mat0 2 2).rows, (mat0 2 2).cols)
      ((mat0 2 3).rows, (mat0 2 3).cols) false = true ∧
    ((kNan (semiNmfArgs false cfg0) (mat0 2 3).transpose (mat0 2 3).transpose
        (mat0 2 2).transpose).1.hasNonFinite ||
     (kNan (semiNmfArgs false cfg0) (mat0 2 3).transpose (mat0 2 3).transpose
        (mat0 2 2).transpose).2.hasNonFinite) = true ∧
    (raisesInstability
      (semi_nmf kNan
        (.tfT ⟨some ((mat0 2 3).rows, (mat0 2 3).cols), .ok (mat0 2 3)⟩)
        (.tfT ⟨some ((mat0 2 2).rows, (mat0 2 2).cols), .ok (mat0 2 2)⟩)
        (.tfT ⟨some ((mat0 2 3).rows, (mat0 2 3).cols), .ok (mat0 2 3)⟩)
        false true true cfg0) = true ∧
    semi_nmf kNan (.np (mat0 2 3)) (.np (mat0 2 2)) (.np (mat0 2 3))
        false false true cfg0 =
      .ok (.concrete
        (kNan (semiNmfArgs false cfg0) (mat0 2 3).transpose (mat0 2 3).transpose
          (mat0 2 2).transpose).2.transpose
        (kNan (semiNmfArgs false cfg0) (mat0 2 3).transpose (mat0 2 3).transpose
          (mat0 2 2).transpose).1.transpose) ∧
    ((kNan (semiNmfArgs false cfg0) (mat0 2 3).transpose (mat0 2 3).transpose
        (mat0 2 2).transpose).2.transpose.hasNonFinite ||
     (kNan (semiNmfArgs false cfg0) (mat0 2 3).transpose (mat0 2 3).transpose
        (mat0 2 2).transpose).1.transpose.hasNonFinite) = true) := by
  have h1 : _check_shape ((mat0 2 3).rows, (mat0 2 3).cols)
      ((mat0 2 2).rows, (mat0 2 2).cols)
      ((mat0 2 3).rows, (mat0 2 3).cols) false = true := by decide
  have h2 : ((kNan (semiNmfArgs false cfg0) (mat0 2 3).transpose
        (mat0 2 3).transpose (mat0 2 2).transpose).1.hasNonFinite ||
      (kNan (semiNmfArgs false cfg0) (mat0 2 3).transpose (mat0 2 3).transpose
        (mat0 2 2).transpose).2.hasNonFinite) = true := by decide
  exact ⟨h1, h2,
    deferred_validity_gate kNan (mat0 2 3) (mat0 2 2) (mat0 2 3) false cfg0
      h1 h2⟩

/-- Claim C4: on the deferred backend the static shape of each output graph
tensor equals the static shape recorded from the corresponding input before
the opaque solver node, even though the opaque node's own outputs carry no
static shape. -/
theorem shape_reattachment (k : Kernel) (ta tu tv : TFTensor) (ub df : Bool)
    (cfg : Config)
    (hshape : checkShapeOpt ta.staticShape tu.staticShape tv.staticShape ub
      = true) :
    graphShapes (semi_nmf k (.tfT ta) (.tfT tu) (.tfT tv) ub true df cfg) =
      some (tu.staticShape, tv.staticShape) ∧
    graphShapes
        (nonlin_semi_nmf k (.tfT ta) (.tfT tu) (.tfT tv) ub true df cfg) =
      some (tu.staticShape, tv.staticShape) ∧
    ∀ f x y z, (tfPyFunc f x y z).1.staticShape = none ∧
               (tfPyFunc f x y z).2.staticShape = none := by
  refine ⟨?_, ?_, fun f x y z => ⟨rfl, rfl⟩⟩
  · cases df
    · rw [semi_nmf_tf_matlab k ta tu tv ub cfg hshape]; rfl
    · rw [semi_nmf_tf_batch k ta tu tv ub cfg hshape]; rfl
  · cases df
    · rw [nonlin_semi_nmf_tf_matlab k ta tu tv ub cfg hshape]; rfl
    · rw [nonlin_semi_nmf_tf_batch k ta tu tv ub cfg hshape]; rfl

/-- Concrete instantiation of `shape_reattachment` on 2-by-3 placeholder
tensors. -/
theorem shape_reattachment_witness :
    checkShapeOpt (TFTensor.mk (some (2, 3)) (.ok (mat0 2 3))).staticShape
      (TFTensor.mk (some (2, 2)) (.ok (mat0 2 2))).staticShape
      (TFTensor.mk (some (2, 3)) (.ok (mat0 2 3))).staticShape false = true ∧
    (graphShapes (semi_nmf kZero (.tfT ⟨some (2, 3), .ok (mat0 2 3)⟩)
        (.tfT ⟨some (2, 2), .ok (mat0 2 2)⟩)
        (.tfT ⟨some (2, 3), .ok (mat0 2 3)⟩) false true true cfg0) =
      some ((TFTensor.mk (some (2, 2)) (.ok (mat0 2 2))).staticShape,
            (TFTensor.mk (some (2, 3)) (.ok (mat0 2 3))).staticShape) ∧
    graphShapes (nonlin_semi_nmf kZero (.tfT ⟨some (2, 3), .ok (mat0 2 3)⟩)
        (.tfT ⟨some (2, 2), .ok (mat0 2 2)⟩)
        (.tfT ⟨some (2, 3), .ok (mat0 2 3)⟩) false true true cfg0) =
      some ((TFTensor.mk (some (2, 2)) (.ok (mat0 2 2))).staticShape,
            (TFTensor.mk (some (2, 3)) (.ok (mat0 2 3))).staticShape) ∧
    ∀ f x y z, (tfPyFunc f x y z).1.staticShape = none ∧
               (tfPyFunc f x y z).2.staticShape = none) := by
  have h : checkShapeOpt
      (TFTensor.mk (some (2, 3)) (.ok (mat0 2 3))).staticShape
      (TFTensor.mk (some (2, 2)) (.ok (mat0 2 2))).staticShape
      (TFTensor.mk (some (2, 3)) (.ok (mat0 2 3))).staticShape false = true := by
    decide
  exact ⟨h, shape_reattachment kZero ⟨some (2, 3), .ok (mat0 2 3)⟩
    ⟨some (2, 2), .ok (mat0 2 2)⟩ ⟨some (2, 3), .ok (mat0 2 3)⟩ false true
    cfg0 h⟩

/-- Claim C5: for inputs failing the shape check, the linear and nonlinear
entry operations fail before any solver work, while the softmax entry
performs no shape check and proceeds to dispatch, returning the dispatched
kernel result. -/
theorem validation_asymmetry (k : Kernel) (a u v : Mat) (ub utf df : Bool)
    (cfg : Config)
    (hfail : _check_shape (a.rows, a.cols) (u.rows, u.cols) (v.rows, v.cols)
      ub = false) :
    semi_nmf k (.np a) (.np u) (.np v) ub utf df cfg =
      .error .shapeAssertion ∧
    nonlin_semi_nmf k (.np a) (.np u) (.np v) ub utf df cfg =
      .error .shapeAssertion ∧
    softmax_nmf k (.np a) (.np u) (.np v) ub false true cfg =
      .ok (.concrete
        (k (softmaxNmfArgs ub cfg) a.transpose v.transpose u.transpose).2.transpose
        (k (softmaxNmfArgs ub cfg) a.transpose v.transpose u.transpose).1.transpose) :=
  ⟨semi_nmf_shape_fail k (.np a) (.np u) (.np v) ub utf df cfg
      (by simpa [checkShapeOpt, TensorLike.shape] using hfail),
   nonlin_semi_nmf_shape_fail k (.np a) (.np u) (.np v) ub utf df cfg
      (by simpa [checkShapeOpt, TensorLike.shape] using hfail),
   softmax_nmf_np_batch k a u v ub cfg⟩

/-- Concrete instantiation of `validation_asymmetry` on shapes failing all
three clauses. -/
theorem validation_asymmetry_witness :
    _check_shape ((mat0 1 2).rows, (mat0 1 2).cols)
      ((mat0 2 3).rows, (mat0 2 3).cols)
      ((mat0 4 5).rows, (mat0 4 5).cols) false = false ∧
    (semi_nmf kZero (.np (mat0 1 2)) (.np (mat0 2 3)) (.np (mat0 4 5))
        false false true cfg0 = .error .shapeAssertion ∧
    nonlin_semi_nmf kZero (.np (mat0 1 2)) (.np (mat0 2 3)) (.np (mat0 4 5))
        false false true cfg0 = .error .shapeAssertion ∧
    softmax_nmf kZero (.np (mat0 1 2)) (.np (mat0 2 3)) (.np (mat0 4 5))
        false false true cfg0 =
      .ok (.concrete
        (kZero (softmaxNmfArgs false cfg0) (mat0 1 2).transpose
          (mat0 4 5).transpose (mat0 2 3).transpose).2.transpose
        (kZero (softmaxNmfArgs false cfg0) (mat0 1 2).transpose
          (mat0 4 5).transpose (mat0 2 3).transpose).1.transpose)) := by
  have h : _check_shape ((mat0 1 2).rows, (mat0 1 2).cols)
      ((mat0 2 3).rows, (mat0 2 3).cols)
      ((mat0 4 5).rows, (mat0 4 5).cols) false = false := by decide
  exact ⟨h, validation_asymmetry kZero (mat0 1 2) (mat0 2 3) (mat0 4 5)
    false false true cfg0 h⟩

/-- Claim C6: whenever the shape validator rejects the inputs, both the
linear and the nonlinear entry operations return the shape-assertion error,
for every kernel and flag combination, so no solver work begins. -/
theorem fail_before_work (k : Kernel) (a u v : TensorLike) (ub utf df : Bool)
    (cfg : Config)
    (hfail : checkShapeOpt a.shape u.shape v.shape ub = false) :
    semi_nmf k a u v ub utf df cfg = .error .shapeAssertion ∧
    nonlin_semi_nmf k a u v ub utf df cfg = .error .shapeAssertion :=
  ⟨semi_nmf_shape_fail k a u v ub utf df cfg hfail,
   nonlin_semi_nmf_shape_fail k a u v ub utf df cfg hfail⟩

/-- Concrete instantiation of `fail_before_work`. -/
theorem fail_before_work_witness :
    checkShapeOpt (TensorLike.np (mat0 1 2)).shape
      (TensorLike.np (mat0 2 3)).shape (TensorLike.np (mat0 4 5)).shape false
      = false ∧
    (semi_nmf kNan (.np (mat0 1 2)) (.np (mat0 2 3)) (.np (mat0 4 5))
        false false true cfg0 = .error .shapeAssertion ∧
    nonlin_semi_nmf kNan (.np (mat0 1 2)) (.np (mat0 2 3)) (.np (mat0 4 5))
        false false true cfg0 = .error .shapeAssertion) := by
  have h : checkShapeOpt (TensorLike.np (mat0 1 2)).shape
      (TensorLike.np (mat0 2 3)).shape (TensorLike.np (mat0 4 5)).shape false
      = false := by decide
  exact ⟨h, fail_before_work kNan (.np (mat0 1 2)) (.np (mat0 2 3))
    (.np (mat0 4 5)) false false true cfg0 h⟩

/-- Claim C8: with the solver-native feature-first orientation selected on
the immediate backend, both entry operations pass A, U, V to the bound solver
unchanged and return its result unchanged: no transpose, no factor swap. -/
theorem feature_first_pass_through (k : Kernel) (a u v : Mat) (ub : Bool)
    (cfg : Config)
    (hshape : _check_shape (a.rows, a.cols) (u.rows, u.cols) (v.rows, v.cols)
      ub = true) :
    semi_nmf k (.np a) (.np u) (.np v) ub false false cfg =
      .ok (.concrete (k (semiNmfArgs ub cfg) a u v).1
                     (k (semiNmfArgs ub cfg) a u v).2) ∧
    nonlin_semi_nmf k (.np a) (.np u) (.np v) ub false false cfg =
      .ok (.concrete (k (nonlinSemiNmfArgs ub cfg) a u v).1
                     (k (nonlinSemiNmfArgs ub cfg) a u v).2) :=
  ⟨semi_nmf_np_matlab k a u v ub cfg hshape,
   nonlin_semi_nmf_np_matlab k a u v ub cfg hshape⟩

/-- Concrete instantiation of `feature_first_pass_through`. -/
theorem feature_first_pass_through_witness :
    _check_shape ((mat0 2 3).rows, (mat0 2 3).cols)
      ((mat0 2 2).rows, (mat0 2 2).cols)
      ((mat0 2 3).rows, (mat0 2 3).cols) false = true ∧
    (semi_nmf kZero (.np (mat0 2 3)) (.np (mat0 2 2)) (.np (mat0 2 3))
        false false false cfg0 =
      .ok (.concrete
        (kZero (semiNmfArgs false cfg0) (mat0 2 3) (mat0 2 2) (mat0 2 3)).1
        (kZero (semiNmfArgs false cfg0) (mat0 2 3) (mat0 2 2) (mat0 2 3)).2) ∧
    nonlin_semi_nmf kZero (.np (mat0 2 3)) (.np (mat0 2 2)) (.np (mat0 2 3))
        false false false cfg0 =
      .ok (.concrete
        (kZero (nonlinSemiNmfArgs false cfg0) (mat0 2 3) (mat0 2 2)
          (mat0 2 3)).1
        (kZero (nonlinSemiNmfArgs false cfg0) (mat0 2 3) (mat0 2 2)
          (mat0 2 3)).2)) := by
  have h : _check_shape ((mat0 2 3).rows, (mat0 2 3).cols)
      ((mat0 2 2).rows, (mat0 2 2).cols)
      ((mat0 2 3).rows, (mat0 2 3).cols) false = true := by decide
  exact ⟨h, feature_first_pass_through kZero (mat0 2 3) (mat0 2 2) (mat0 2 3)
    false cfg0 h⟩

/-- Claim C9: when the inputs select neither the immediate backend (a is not
a concrete array) nor the deferred backend (the flag is unset), the entry
operation fails with the unsupported-backend error for every kernel, so no
numeric solving is attempted. -/
theorem unsupported_backend (k : Kernel) (t : TFTensor) (u v : TensorLike)
    (ub df : Bool) (cfg : Config)
    (hshape : checkShapeOpt t.staticShape u.shape v.shape ub = true) :
    semi_nmf k (.tfT t) u v ub false df cfg = .error .notImplemented ∧
    softmax_nmf k (.tfT t) u v ub false df cfg = .error .notImplemented := by
  have h' : checkShapeOpt (TensorLike.tfT t).shape u.shape v.shape ub
      = true := hshape
  constructor
  · simp [semi_nmf, TensorLike.isNp, h']
  · simp [softmax_nmf, TensorLike.isNp]

/-- Concrete instantiation of `unsupported_backend`: a graph tensor with the
deferred flag unset. -/
theorem unsupported_backend_witness :
    checkShapeOpt (TFTensor.mk (some (2, 3)) (.ok (mat0 2 3))).staticShape
      (TensorLike.np (mat0 2 2)).shape (TensorLike.np (mat0 2 3)).shape false
      = true ∧
    (semi_nmf kZero (.tfT ⟨some (2, 3), .ok (mat0 2 3)⟩) (.np (mat0 2 2))
        (.np (mat0 2 3)) false false true cfg0 = .error .notImplemented ∧
    softmax_nmf kZero (.tfT ⟨some (2, 3), .ok (mat0 2 3)⟩) (.np (mat0 2 2))
        (.np (mat0 2 3)) false false true cfg0 = .error .notImplemented) := by
  have h : checkShapeOpt
      (TFTensor.mk (some (2, 3)) (.ok (mat0 2 3))).staticShape
      (TensorLike.np (mat0 2 2)).shape (TensorLike.np (mat0 2 3)).shape false
      = true := by decide
  exact ⟨h, unsupported_backend kZero ⟨some (2, 3), .ok (mat0 2 3)⟩
    (.np (mat0 2 2)) (.np (mat0 2 3)) false true cfg0 h⟩

/-- Claim C10: the explicit deferred flag takes precedence over the runtime
type of A: a concrete array with the flag set goes down the deferred graph
path, and the immediate path is taken only when A is concrete and the flag is
unset. -/
theorem backend_flag_precedence (k : Kernel) (a u v : Mat) (ub df : Bool)
    (cfg : Config)
    (hshape : _check_shape (a.rows, a.cols) (u.rows, u.cols) (v.rows, v.cols)
      ub = true) :
    isGraphResult (semi_nmf k (.np a) (.np u) (.np v) ub true df cfg)
      = true ∧
    isConcreteResult (semi_nmf k (.np a) (.np u) (.np v) ub false df cfg)
      = true ∧
    isGraphResult (nonlin_semi_nmf k (.np a) (.np u) (.np v) ub true df cfg)
      = true ∧
    isConcreteResult
      (nonlin_semi_nmf k (.np a) (.np u) (.np v) ub false df cfg) = true := by
  cases df <;>
    simp [semi_nmf, nonlin_semi_nmf, isGraphResult, isConcreteResult,
          TensorLike.shape, TensorLike.isNp, TensorLike.toTF, TensorLike.val,
          checkShapeOpt, hshape]

/-- Concrete instantiation of `backend_flag_precedence`. -/
theorem backend_flag_precedence_witness :
    _check_shape ((mat0 2 3).rows, (mat0 2 3).cols)
      ((mat0 2 2).rows, (mat0 2 2).cols)
      ((mat0 2 3).rows, (mat0 2 3).cols) false = true ∧
    (isGraphResult (semi_nmf kZero (.np (mat0 2 3)) (.np (mat0 2 2))
        (.np (mat0 2 3)) false true true cfg0) = true ∧
    isConcreteResult (semi_nmf kZero (.np (mat0 2 3)) (.np (mat0 2 2))
        (.np (mat0 2 3)) false false true cfg0) = true ∧
    isGraphResult (nonlin_semi_nmf kZero (.np (mat0 2 3)) (.np (mat0 2 2))
        (.np (mat0 2 3)) false true true cfg0) = true ∧
    isConcreteResult (nonlin_semi_nmf kZero (.np (mat0 2 3)) (.np (mat0 2 2))
        (.np (mat0 2 3)) false false true cfg0) = true) := by
  have h : _check_shape ((mat0 2 3).rows, (mat0 2 3).cols)
      ((mat0 2 2).rows, (mat0 2 2).cols)
      ((mat0 2 3).rows, (mat0 2 3).cols) false = true := by decide
  exact ⟨h, backend_flag_precedence kZero (mat0 2 3) (mat0 2 2) (mat0 2 3)
    false true cfg0 h⟩

end SakuraiNMF
